import Mathlib

/-!
Shallow embedding of the value layer of `sea-query` (`src/value.rs`,
`src/error.rs`): the `Value` tagged union, the conversion contract
(`From<T>` / `ValueType::unwrap`), the SQL literal escape/unescape codec,
and the JSON bridge.

Conventions of the embedding:
* Rust strings are `List Char` (Rust `char` and Lean `Char` are both
  Unicode scalar values); Rust `Vec<u8>` is `List Nat` with byte values.
* Machine integers are `Int`/`Nat`; no operation in this file overflows.
* `f32` / `f64` payloads are carried as their IEEE-754 bit patterns
  (`Nat`): none of the modelled operations computes with floats, they
  only move the payload, so the bit pattern is the faithful carrier.
* A Rust `panic!` / `unimplemented!` / `.unwrap()` failure is modelled by
  returning `none` of an outer `Option`.
* `Box` is an ownership device with no observable content, so boxed
  payloads are carried directly.
-/

/-- Number payload of a JSON value, after `serde_json`'s standard
representation `N`: an unsigned 64-bit magnitude, a negative signed
64-bit integer, or an `f64` (carried as its bit pattern). -/
inductive JNumber
  | PosInt (n : Nat)
  | NegInt (i : Int)
  | Float (bits : Nat)
  deriving DecidableEq, Repr

/-- `serde_json::Value`. -/
inductive Json
  | null
  | bool (b : Bool)
  | num (n : JNumber)
  | str (s : List Char)
  | arr (elems : List Json)
  | obj (fields : List (List Char × Json))
  deriving Repr

/-- `Value` as compiled with the `with-json` feature enabled and
`with-chrono` / `with-uuid` disabled (`src/value.rs` lines 16-43): the
build configuration exercised by the JSON bridge claims. -/
inductive Value
  | Null
  | Bool (b : Bool)
  | TinyInt (x : Int)
  | SmallInt (x : Int)
  | Int (x : Int)
  | BigInt (x : Int)
  | TinyUnsigned (x : Nat)
  | SmallUnsigned (x : Nat)
  | Unsigned (x : Nat)
  | BigUnsigned (x : Nat)
  | Float (bits : Nat)
  | Double (bits : Nat)
  | String (s : List Char)
  | Bytes (b : List Nat)
  | Json (j : Json)
  deriving Repr

/-! ## Literal escaping (`src/value.rs` lines 259-296) -/

/-- Rust `str::replace` specialised to the single-character patterns used
by `escape_string`: every occurrence of the character `c` is replaced by
the string `r` (for a one-character pattern, Rust's left-to-right
non-overlapping substring replacement is exactly this character map). -/
def replaceChar (c : Char) (r : List Char) : List Char → List Char
  | [] => []
  | x :: s => (if x = c then r else [x]) ++ replaceChar c r s

/-- `escape_string` (`src/value.rs` lines 260-271): the nine `replace`
calls applied in source order, backslash first. -/
def escape_string (s : List Char) : List Char :=
  replaceChar (Char.ofNat 13) ['\\', 'r']
    (replaceChar (Char.ofNat 10) ['\\', 'n']
      (replaceChar (Char.ofNat 26) ['\\', 'z']
        (replaceChar (Char.ofNat 9) ['\\', 't']
          (replaceChar (Char.ofNat 8) ['\\', 'b']
            (replaceChar (Char.ofNat 0) ['\\', '0']
              (replaceChar (Char.ofNat 39) ['\\', Char.ofNat 39]
                (replaceChar '"' ['\\', '"']
                  (replaceChar '\\' ['\\', '\\'] s))))))))

/-- The character table of `unescape_string`'s escaped branch
(`src/value.rs` lines 281-289): the `match c` mapping an escape
sequence's second character back, identity outside the table. -/
def unescapeChar (c : Char) : Char :=
  if c = '0' then Char.ofNat 0
  else if c = 'b' then Char.ofNat 8
  else if c = 't' then Char.ofNat 9
  else if c = 'z' then Char.ofNat 26
  else if c = 'n' then Char.ofNat 10
  else if c = 'r' then Char.ofNat 13
  else c

/-- The loop of `unescape_string` (`src/value.rs` lines 275-294), with the
mutable `escape` flag made an explicit argument and the output built by
recursion instead of pushes. -/
def unescapeGo : Bool → List Char → List Char
  | _, [] => []
  | esc, c :: rest =>
    if esc = false ∧ c = '\\' then unescapeGo true rest
    else if esc = true then unescapeChar c :: unescapeGo false rest
    else c :: unescapeGo false rest

/-- `unescape_string` (`src/value.rs` lines 274-296). -/
def unescape_string (input : List Char) : List Char :=
  unescapeGo false input

/-! ## Conversion contract (`src/value.rs` lines 61-161)

The macros `type_to_value!` / `type_to_box_value!` expand, for each
supported scalar type, to `From<T> for Value`, `From<Option<T>> for
Value`, `ValueType for T` and `ValueType for Option<T>`. Each expansion
is embedded as a quadruple of functions; an `unwrap` returning `none`
models the `panic!("type error")` arm. -/

def from_bool (x : Bool) : Value := Value.Bool x

def from_i8 (x : Int) : Value := Value.TinyInt x

def from_i16 (x : Int) : Value := Value.SmallInt x

def from_i32 (x : Int) : Value := Value.Int x

def from_i64 (x : Int) : Value := Value.BigInt x

def from_u8 (x : Nat) : Value := Value.TinyUnsigned x

def from_u16 (x : Nat) : Value := Value.SmallUnsigned x

def from_u32 (x : Nat) : Value := Value.Unsigned x

def from_u64 (x : Nat) : Value := Value.BigUnsigned x

def from_f32 (bits : Nat) : Value := Value.Float bits

def from_f64 (bits : Nat) : Value := Value.Double bits

def from_string (x : List Char) : Value := Value.String x

def from_bytes (x : List Nat) : Value := Value.Bytes x

def from_opt_bool : Option Bool → Value
  | some v => Value.Bool v
  | none => Value.Null

def from_opt_i8 : Option Int → Value
  | some v => Value.TinyInt v
  | none => Value.Null

def from_opt_i16 : Option Int → Value
  | some v => Value.SmallInt v
  | none => Value.Null

def from_opt_i32 : Option Int → Value
  | some v => Value.Int v
  | none => Value.Null

def from_opt_i64 : Option Int → Value
  | some v => Value.BigInt v
  | none => Value.Null

def from_opt_u8 : Option Nat → Value
  | some v => Value.TinyUnsigned v
  | none => Value.Null

def from_opt_u16 : Option Nat → Value
  | some v => Value.SmallUnsigned v
  | none => Value.Null

def from_opt_u32 : Option Nat → Value
  | some v => Value.Unsigned v
  | none => Value.Null

def from_opt_u64 : Option Nat → Value
  | some v => Value.BigUnsigned v
  | none => Value.Null

def from_opt_f32 : Option Nat → Value
  | some v => Value.Float v
  | none => Value.Null

def from_opt_f64 : Option Nat → Value
  | some v => Value.Double v
  | none => Value.Null

def from_opt_string : Option (List Char) → Value
  | some v => Value.String v
  | none => Value.Null

def from_opt_bytes : Option (List Nat) → Value
  | some v => Value.Bytes v
  | none => Value.Null

def unwrap_bool : Value → Option Bool
  | Value.Bool x => some x
  | _ => none

def unwrap_i8 : Value → Option Int
  | Value.TinyInt x => some x
  | _ => none

def unwrap_i16 : Value → Option Int
  | Value.SmallInt x => some x
  | _ => none

def unwrap_i32 : Value → Option Int
  | Value.Int x => some x
  | _ => none

def unwrap_i64 : Value → Option Int
  | Value.BigInt x => some x
  | _ => none

def unwrap_u8 : Value → Option Nat
  | Value.TinyUnsigned x => some x
  | _ => none

def unwrap_u16 : Value → Option Nat
  | Value.SmallUnsigned x => some x
  | _ => none

def unwrap_u32 : Value → Option Nat
  | Value.Unsigned x => some x
  | _ => none

def unwrap_u64 : Value → Option Nat
  | Value.BigUnsigned x => some x
  | _ => none

def unwrap_f32 : Value → Option Nat
  | Value.Float x => some x
  | _ => none

def unwrap_f64 : Value → Option Nat
  | Value.Double x => some x
  | _ => none

def unwrap_string : Value → Option (List Char)
  | Value.String x => some x
  | _ => none

def unwrap_bytes : Value → Option (List Nat)
  | Value.Bytes x => some x
  | _ => none

/-- `ValueType for Option<$type>` from the macros (`src/value.rs` lines
87-94 and 124-131): the outer `Option` is the panic channel, the inner
one the Rust `Option<T>` result. Note the source matches only
`Value::$name` and sends every other variant, `Value::Null` included, to
`panic!("type error")`. -/
def unwrap_opt_bool : Value → Option (Option Bool)
  | Value.Bool x => some (some x)
  | _ => none

def unwrap_opt_i8 : Value → Option (Option Int)
  | Value.TinyInt x => some (some x)
  | _ => none

def unwrap_opt_i16 : Value → Option (Option Int)
  | Value.SmallInt x => some (some x)
  | _ => none

def unwrap_opt_i32 : Value → Option (Option Int)
  | Value.Int x => some (some x)
  | _ => none

def unwrap_opt_i64 : Value → Option (Option Int)
  | Value.BigInt x => some (some x)
  | _ => none

def unwrap_opt_u8 : Value → Option (Option Nat)
  | Value.TinyUnsigned x => some (some x)
  | _ => none

def unwrap_opt_u16 : Value → Option (Option Nat)
  | Value.SmallUnsigned x => some (some x)
  | _ => none

def unwrap_opt_u32 : Value → Option (Option Nat)
  | Value.Unsigned x => some (some x)
  | _ => none

def unwrap_opt_u64 : Value → Option (Option Nat)
  | Value.BigUnsigned x => some (some x)
  | _ => none

def unwrap_opt_f32 : Value → Option (Option Nat)
  | Value.Float x => some (some x)
  | _ => none

def unwrap_opt_f64 : Value → Option (Option Nat)
  | Value.Double x => some (some x)
  | _ => none

def unwrap_opt_string : Value → Option (Option (List Char))
  | Value.String x => some (some x)
  | _ => none

def unwrap_opt_bytes : Value → Option (Option (List Nat))
  | Value.Bytes x => some (some x)
  | _ => none

/-- The discriminant of a `Value`: which variant it currently holds. -/
inductive ValueTag
  | NullT | BoolT | TinyIntT | SmallIntT | IntT | BigIntT
  | TinyUnsignedT | SmallUnsignedT | UnsignedT | BigUnsignedT
  | FloatT | DoubleT | StringT | BytesT | JsonT
  deriving DecidableEq, Repr

def Value.tag : Value → ValueTag
  | Value.Null => ValueTag.NullT
  | Value.Bool _ => ValueTag.BoolT
  | Value.TinyInt _ => ValueTag.TinyIntT
  | Value.SmallInt _ => ValueTag.SmallIntT
  | Value.Int _ => ValueTag.IntT
  | Value.BigInt _ => ValueTag.BigIntT
  | Value.TinyUnsigned _ => ValueTag.TinyUnsignedT
  | Value.SmallUnsigned _ => ValueTag.SmallUnsignedT
  | Value.Unsigned _ => ValueTag.UnsignedT
  | Value.BigUnsigned _ => ValueTag.BigUnsignedT
  | Value.Float _ => ValueTag.FloatT
  | Value.Double _ => ValueTag.DoubleT
  | Value.String _ => ValueTag.StringT
  | Value.Bytes _ => ValueTag.BytesT
  | Value.Json _ => ValueTag.JsonT

/-! ## JSON bridge (`src/value.rs` lines 298-347)

`serde_json`'s standard number representation and the accessor methods
called by the bridge. -/

def i64MaxN : Nat := 9223372036854775807

/-- `serde_json` `Number::is_f64`: true exactly on the `f64` variant. -/
def JNumber.is_f64 : JNumber → Bool
  | JNumber.Float _ => true
  | _ => false

/-- `serde_json` `Number::is_i64`: a negative integer always fits; an
unsigned magnitude fits when it is at most `i64::MAX`. -/
def JNumber.is_i64 : JNumber → Bool
  | JNumber.PosInt n => n ≤ i64MaxN
  | JNumber.NegInt _ => true
  | JNumber.Float _ => false

/-- `serde_json` `Number::is_u64`: true exactly on the unsigned variant. -/
def JNumber.is_u64 : JNumber → Bool
  | JNumber.PosInt _ => true
  | _ => false

/-- `serde_json` `Number::as_f64`, restricted to the `f64` variant. In
`serde_json` the integer variants also answer `Some` after a rounding
int-to-float conversion, but the bridge only calls `as_f64` under an
`is_f64` guard, so those arms are unreachable there and the rounding is
not modelled. -/
def JNumber.as_f64 : JNumber → Option Nat
  | JNumber.Float bits => some bits
  | _ => none

/-- `serde_json` `Number::as_i64`. -/
def JNumber.as_i64 : JNumber → Option Int
  | JNumber.PosInt n => if n ≤ i64MaxN then some (n : Int) else none
  | JNumber.NegInt i => some i
  | JNumber.Float _ => none

/-- `serde_json` `Number::as_u64`. -/
def JNumber.as_u64 : JNumber → Option Nat
  | JNumber.PosInt n => some n
  | _ => none

/-- `serde_json` `Number::from` for a signed machine integer: negative
values take the negative variant, the rest the unsigned one. -/
def JNumber.ofInt (i : Int) : JNumber :=
  if i < 0 then JNumber.NegInt i else JNumber.PosInt i.toNat

/-- `i32::from(bool)`: `true` to 1, `false` to 0 (the `v.to_owned().into()`
in the `Json::Bool` arm of the bridge). -/
def i32_from_bool (b : Bool) : Int := if b then 1 else 0

/-- `json_value_to_sea_value` (`src/value.rs` lines 301-319). `none`
models the two `unimplemented!()` panics (a number representable as none
of f64/i64/u64, and any array). -/
def json_value_to_sea_value : Json → Option Value
  | Json.null => some Value.Null
  | Json.bool v => some (Value.Int (i32_from_bool v))
  | Json.num v =>
    if v.is_f64 then
      match v.as_f64 with
      | some bits => some (Value.Double bits)
      | none => none
    else if v.is_i64 then
      match v.as_i64 with
      | some x => some (Value.BigInt x)
      | none => none
    else if v.is_u64 then
      match v.as_u64 with
      | some x => some (Value.BigUnsigned x)
      | none => none
    else none
  | Json.str v => some (Value.String v)
  | Json.arr _ => none
  | Json.obj v => some (Value.Json (Json.obj v))

/-- Strict UTF-8 decoding of a byte sequence, as validated by Rust
`std::str::from_utf8`: rejects stray continuation bytes, overlong forms,
surrogate code points and values above `0x10FFFF`; `none` is the
`Err(Utf8Error)` case. -/
def from_utf8 : List Nat → Option (List Char)
  | [] => some []
  | b0 :: rest =>
    if b0 < 0x80 then
      (from_utf8 rest).map (fun cs => Char.ofNat b0 :: cs)
    else if b0 < 0xC2 then none
    else if b0 ≤ 0xDF then
      match rest with
      | b1 :: rest1 =>
        if 0x80 ≤ b1 ∧ b1 ≤ 0xBF then
          (from_utf8 rest1).map
            (fun cs => Char.ofNat ((b0 - 0xC0) * 0x40 + (b1 - 0x80)) :: cs)
        else none
      | [] => none
    else if b0 ≤ 0xEF then
      match rest with
      | b1 :: b2 :: rest2 =>
        if (if b0 = 0xE0 then 0xA0 ≤ b1 ∧ b1 ≤ 0xBF
            else if b0 = 0xED then 0x80 ≤ b1 ∧ b1 ≤ 0x9F
            else 0x80 ≤ b1 ∧ b1 ≤ 0xBF) ∧ 0x80 ≤ b2 ∧ b2 ≤ 0xBF then
          (from_utf8 rest2).map
            (fun cs => Char.ofNat
              ((b0 - 0xE0) * 0x1000 + (b1 - 0x80) * 0x40 + (b2 - 0x80)) :: cs)
        else none
      | _ => none
    else if b0 ≤ 0xF4 then
      match rest with
      | b1 :: b2 :: b3 :: rest3 =>
        if (if b0 = 0xF0 then 0x90 ≤ b1 ∧ b1 ≤ 0xBF
            else if b0 = 0xF4 then 0x80 ≤ b1 ∧ b1 ≤ 0x8F
            else 0x80 ≤ b1 ∧ b1 ≤ 0xBF) ∧
            (0x80 ≤ b2 ∧ b2 ≤ 0xBF) ∧ 0x80 ≤ b3 ∧ b3 ≤ 0xBF then
          (from_utf8 rest3).map
            (fun cs => Char.ofNat
              ((b0 - 0xF0) * 0x40000 + (b1 - 0x80) * 0x1000 +
                (b2 - 0x80) * 0x40 + (b3 - 0x80)) :: cs)
        else none
      | _ => none
    else none

/-- IEEE-754 double finiteness on the bit pattern: the exponent field is
not all ones (`f64::is_finite`). -/
def f64_is_finite (bits : Nat) : Bool :=
  bits / 2 ^ 52 % 2 ^ 11 ≠ 2047

/-- The exact widening `f32 as f64` on bit patterns (every finite `f32`
is exactly representable as an `f64`; NaN payloads shift into the high
mantissa bits). -/
def f32_to_f64_bits (bits : Nat) : Nat :=
  let s := bits / 2 ^ 31 % 2
  let e := bits / 2 ^ 23 % 2 ^ 8
  let m := bits % 2 ^ 23
  if e = 255 then s * 2 ^ 63 + 2047 * 2 ^ 52 + m * 2 ^ 29
  else if e = 0 then
    if m = 0 then s * 2 ^ 63
    else
      let L := Nat.log2 m + 1
      s * 2 ^ 63 + (874 + (L - 1)) * 2 ^ 52 + (m * 2 ^ (52 - (L - 1)) - 2 ^ 52)
  else s * 2 ^ 63 + (e + 896) * 2 ^ 52 + m * 2 ^ 29

/-- `serde_json` `Json::from(f64)` via `Number::from_f64`: a finite
double becomes a number, NaN and infinities become JSON null. -/
def json_from_f64 (bits : Nat) : Json :=
  if f64_is_finite bits then Json.num (JNumber.Float bits) else Json.null

/-- `sea_value_to_json_value` (`src/value.rs` lines 325-347), in the
`with-json` build (the `with-chrono` / `with-uuid` arms are compiled
out). `none` models the panic of `from_utf8(s).unwrap()` on invalid
UTF-8 bytes. -/
def sea_value_to_json_value : Value → Option Json
  | Value.Null => some Json.null
  | Value.Bool b => some (Json.bool b)
  | Value.TinyInt v => some (Json.num (JNumber.ofInt v))
  | Value.SmallInt v => some (Json.num (JNumber.ofInt v))
  | Value.Int v => some (Json.num (JNumber.ofInt v))
  | Value.BigInt v => some (Json.num (JNumber.ofInt v))
  | Value.TinyUnsigned v => some (Json.num (JNumber.PosInt v))
  | Value.SmallUnsigned v => some (Json.num (JNumber.PosInt v))
  | Value.Unsigned v => some (Json.num (JNumber.PosInt v))
  | Value.BigUnsigned v => some (Json.num (JNumber.PosInt v))
  | Value.Float v => some (json_from_f64 (f32_to_f64_bits v))
  | Value.Double v => some (json_from_f64 v)
  | Value.String s => some (Json.str s)
  | Value.Bytes s =>
    match from_utf8 s with
    | some cs => some (Json.str cs)
    | none => none
  | Value.Json v => some v

/-! ## Capability predicates under build configurations
(`src/value.rs` lines 199-257)

`is_json`, `is_date_time` and `is_uuid` are `cfg`-switched: the enabled
branch is `matches!(self, Self::Kind(_))`, the disabled branch is a
literal `return false`. Two further embeddings of the `Value` enum cover
the two extreme build configurations. -/

/-- `chrono::NaiveDateTime`, carried opaquely (the predicates never look
inside the payload). -/
structure NaiveDateTime where
  secs : Int
  nsecs : Nat
  deriving DecidableEq, Repr

/-- `Value` as compiled with all three optional features (`with-json`,
`with-chrono`, `with-uuid`) enabled; the `Uuid` payload is the 128-bit
value. -/
inductive ValueAllFeatures
  | Null
  | Bool (b : Bool)
  | TinyInt (x : Int)
  | SmallInt (x : Int)
  | Int (x : Int)
  | BigInt (x : Int)
  | TinyUnsigned (x : Nat)
  | SmallUnsigned (x : Nat)
  | Unsigned (x : Nat)
  | BigUnsigned (x : Nat)
  | Float (bits : Nat)
  | Double (bits : Nat)
  | String (s : List Char)
  | Bytes (b : List Nat)
  | Json (j : Json)
  | DateTime (d : NaiveDateTime)
  | Uuid (u : Nat)
  deriving Repr

/-- `Value` as compiled with no optional feature enabled. -/
inductive ValueNoFeatures
  | Null
  | Bool (b : Bool)
  | TinyInt (x : Int)
  | SmallInt (x : Int)
  | Int (x : Int)
  | BigInt (x : Int)
  | TinyUnsigned (x : Nat)
  | SmallUnsigned (x : Nat)
  | Unsigned (x : Nat)
  | BigUnsigned (x : Nat)
  | Float (bits : Nat)
  | Double (bits : Nat)
  | String (s : List Char)
  | Bytes (b : List Nat)
  deriving DecidableEq, Repr

/-- Alias for `Bool`, usable in signatures living inside namespaces whose
`Bool` constructor shadows the type name. -/
abbrev BoolR := Bool

/-- `Value::is_json` with `with-json` enabled: `matches!(self, Self::Json(_))`. -/
def ValueAllFeatures.is_json : ValueAllFeatures → BoolR
  | ValueAllFeatures.Json _ => true
  | _ => false

/-- `Value::is_date_time` with `with-chrono` enabled. -/
def ValueAllFeatures.is_date_time : ValueAllFeatures → BoolR
  | ValueAllFeatures.DateTime _ => true
  | _ => false

/-- `Value::is_uuid` with `with-uuid` enabled. -/
def ValueAllFeatures.is_uuid : ValueAllFeatures → BoolR
  | ValueAllFeatures.Uuid _ => true
  | _ => false

/-- `Value::is_json` with `with-json` disabled: the
`cfg(not(feature))` branch is a literal `return false`. -/
def ValueNoFeatures.is_json (_ : ValueNoFeatures) : BoolR := false

/-- `Value::is_date_time` with `with-chrono` disabled. -/
def ValueNoFeatures.is_date_time (_ : ValueNoFeatures) : BoolR := false

/-- `Value::is_uuid` with `with-uuid` disabled. -/
def ValueNoFeatures.is_uuid (_ : ValueNoFeatures) : BoolR := false

/-! ## Lemmas about the escape codec -/

/-- The substitution table of `escape_string`, read off one character at
a time; `escape_string` is proved below to act as this map on each
character. -/
def escapeChar (c : Char) : List Char :=
  if c = '\\' then ['\\', '\\']
  else if c = '"' then ['\\', '"']
  else if c = Char.ofNat 39 then ['\\', Char.ofNat 39]
  else if c = Char.ofNat 0 then ['\\', '0']
  else if c = Char.ofNat 8 then ['\\', 'b']
  else if c = Char.ofNat 9 then ['\\', 't']
  else if c = Char.ofNat 26 then ['\\', 'z']
  else if c = Char.ofNat 10 then ['\\', 'n']
  else if c = Char.ofNat 13 then ['\\', 'r']
  else [c]

lemma replaceChar_append (c : Char) (r : List Char) (s t : List Char) :
    replaceChar c r (s ++ t) = replaceChar c r s ++ replaceChar c r t := by
  induction s with
  | nil => simp [replaceChar]
  | cons x s ih => simp [replaceChar, ih]

lemma escape_string_append (s t : List Char) :
    escape_string (s ++ t) = escape_string s ++ escape_string t := by
  simp [escape_string, replaceChar_append]

lemma escape_string_single (x : Char) : escape_string [x] = escapeChar x := by
  by_cases h1 : x = '\\'
  · subst h1; decide
  by_cases h2 : x = '"'
  · subst h2; decide
  by_cases h3 : x = Char.ofNat 39
  · subst h3; decide
  by_cases h4 : x = Char.ofNat 0
  · subst h4; decide
  by_cases h5 : x = Char.ofNat 8
  · subst h5; decide
  by_cases h6 : x = Char.ofNat 9
  · subst h6; decide
  by_cases h7 : x = Char.ofNat 26
  · subst h7; decide
  by_cases h8 : x = Char.ofNat 10
  · subst h8; decide
  by_cases h9 : x = Char.ofNat 13
  · subst h9; decide
  simp [escape_string, replaceChar, escapeChar, h1, h2, h3, h4, h5, h6, h7, h8, h9]

lemma escape_string_cons (x : Char) (s : List Char) :
    escape_string (x :: s) = escapeChar x ++ escape_string s := by
  have h : x :: s = [x] ++ s := rfl
  rw [h, escape_string_append, escape_string_single]

/-- After an unescaped backslash, the next character is always mapped
through the table, whatever it is (the `escape` flag shields it from
starting a new escape). -/
lemma unescapeGo_esc_pair (code : Char) (t : List Char) :
    unescapeGo false ('\\' :: code :: t) = unescapeChar code :: unescapeGo false t := by
  simp [unescapeGo]

lemma unescapeGo_escapeChar (x : Char) (t : List Char) :
    unescapeGo false (escapeChar x ++ t) = x :: unescapeGo false t := by
  by_cases h1 : x = '\\'
  · subst h1
    rw [(by decide : escapeChar '\\' = ['\\', '\\'])]
    rw [List.cons_append, List.cons_append, List.nil_append, unescapeGo_esc_pair]
    rw [(by decide : unescapeChar '\\' = '\\')]
  by_cases h2 : x = '"'
  · subst h2
    rw [(by decide : escapeChar '"' = ['\\', '"'])]
    rw [List.cons_append, List.cons_append, List.nil_append, unescapeGo_esc_pair]
    rw [(by decide : unescapeChar '"' = '"')]
  by_cases h3 : x = Char.ofNat 39
  · subst h3
    rw [(by decide : escapeChar (Char.ofNat 39) = ['\\', Char.ofNat 39])]
    rw [List.cons_append, List.cons_append, List.nil_append, unescapeGo_esc_pair]
    rw [(by decide : unescapeChar (Char.ofNat 39) = Char.ofNat 39)]
  by_cases h4 : x = Char.ofNat 0
  · subst h4
    rw [(by decide : escapeChar (Char.ofNat 0) = ['\\', '0'])]
    rw [List.cons_append, List.cons_append, List.nil_append, unescapeGo_esc_pair]
    rw [(by decide : unescapeChar '0' = Char.ofNat 0)]
  by_cases h5 : x = Char.ofNat 8
  · subst h5
    rw [(by decide : escapeChar (Char.ofNat 8) = ['\\', 'b'])]
    rw [List.cons_append, List.cons_append, List.nil_append, unescapeGo_esc_pair]
    rw [(by decide : unescapeChar 'b' = Char.ofNat 8)]
  by_cases h6 : x = Char.ofNat 9
  · subst h6
    rw [(by decide : escapeChar (Char.ofNat 9) = ['\\', 't'])]
    rw [List.cons_append, List.cons_append, List.nil_append, unescapeGo_esc_pair]
    rw [(by decide : unescapeChar 't' = Char.ofNat 9)]
  by_cases h7 : x = Char.ofNat 26
  · subst h7
    rw [(by decide : escapeChar (Char.ofNat 26) = ['\\', 'z'])]
    rw [List.cons_append, List.cons_append, List.nil_append, unescapeGo_esc_pair]
    rw [(by decide : unescapeChar 'z' = Char.ofNat 26)]
  by_cases h8 : x = Char.ofNat 10
  · subst h8
    rw [(by decide : escapeChar (Char.ofNat 10) = ['\\', 'n'])]
    rw [List.cons_append, List.cons_append, List.nil_append, unescapeGo_esc_pair]
    rw [(by decide : unescapeChar 'n' = Char.ofNat 10)]
  by_cases h9 : x = Char.ofNat 13
  · subst h9
    rw [(by decide : escapeChar (Char.ofNat 13) = ['\\', 'r'])]
    rw [List.cons_append, List.cons_append, List.nil_append, unescapeGo_esc_pair]
    rw [(by decide : unescapeChar 'r' = Char.ofNat 13)]
  have hx : escapeChar x = [x] := by
    simp [escapeChar, h1, h2, h3, h4, h5, h6, h7, h8, h9]
  rw [hx, List.cons_append, List.nil_append]
  simp [unescapeGo, h1]

/-- C1: escaping a string and then unescaping the result reproduces the
original string exactly: `unescape_string (escape_string x) = x` for
every string `x`. -/
theorem C1_unescape_escape_roundtrip (s : List Char) :
    unescape_string (escape_string s) = s := by
  induction s with
  | nil => rfl
  | cons x s ih =>
    rw [escape_string_cons]
    show unescapeGo false (escapeChar x ++ escape_string s) = x :: s
    rw [unescapeGo_escapeChar]
    exact congrArg (x :: ·) ih

/-- C8: `escape_string` acts on each character through the nine-entry
substitution table (which holds only because the backslash substitution
runs first), and in particular on the four literal cases of the spec:
`" \"abc\" "`, `"a\nb\tc"`, `"a\\b"` and `"a\"b"`. -/
theorem C8_escape_table_and_literal_cases :
    (∀ (x : Char) (s : List Char),
      escape_string (x :: s) = escapeChar x ++ escape_string s) ∧
    escape_string [' ', '"', 'a', 'b', 'c', '"', ' ']
      = [' ', '\\', '"', 'a', 'b', 'c', '\\', '"', ' '] ∧
    escape_string ['a', Char.ofNat 10, 'b', Char.ofNat 9, 'c']
      = ['a', '\\', 'n', 'b', '\\', 't', 'c'] ∧
    escape_string ['a', '\\', 'b'] = ['a', '\\', '\\', 'b'] ∧
    escape_string ['a', '"', 'b'] = ['a', '\\', '"', 'b'] :=
  ⟨escape_string_cons, by decide, by decide, by decide, by decide⟩

/-- C2: for every supported native scalar type (bool, i8, i16, i32, i64,
u8, u16, u32, u64, f32, f64, String, Vec of u8) and every value of that
type, constructing a `Value` via `From` and extracting back via that
type's `ValueType::unwrap` returns the value unchanged (floats as bit
patterns). -/
theorem C2_construct_extract_roundtrip :
    (∀ x : Bool, unwrap_bool (from_bool x) = some x) ∧
    (∀ x : Int, unwrap_i8 (from_i8 x) = some x) ∧
    (∀ x : Int, unwrap_i16 (from_i16 x) = some x) ∧
    (∀ x : Int, unwrap_i32 (from_i32 x) = some x) ∧
    (∀ x : Int, unwrap_i64 (from_i64 x) = some x) ∧
    (∀ x : Nat, unwrap_u8 (from_u8 x) = some x) ∧
    (∀ x : Nat, unwrap_u16 (from_u16 x) = some x) ∧
    (∀ x : Nat, unwrap_u32 (from_u32 x) = some x) ∧
    (∀ x : Nat, unwrap_u64 (from_u64 x) = some x) ∧
    (∀ x : Nat, unwrap_f32 (from_f32 x) = some x) ∧
    (∀ x : Nat, unwrap_f64 (from_f64 x) = some x) ∧
    (∀ x : List Char, unwrap_string (from_string x) = some x) ∧
    (∀ x : List Nat, unwrap_bytes (from_bytes x) = some x) :=
  ⟨fun _ => rfl, fun _ => rfl, fun _ => rfl, fun _ => rfl, fun _ => rfl,
   fun _ => rfl, fun _ => rfl, fun _ => rfl, fun _ => rfl, fun _ => rfl,
   fun _ => rfl, fun _ => rfl, fun _ => rfl⟩

/-- C3: construction from an absent `Option` does yield `Value::Null`
for every supported type, but extraction of `Value::Null` through
`ValueType for Option<T>` does NOT yield `None`: the source matches only
`Value::$name(x)` and sends `Value::Null` to the wildcard
`panic!("type error")` arm (modelled by the outer `none`), for every
supported type. -/
theorem C3_option_null_construct_and_extract :
    from_opt_bool none = Value.Null ∧
    from_opt_i8 none = Value.Null ∧
    from_opt_i16 none = Value.Null ∧
    from_opt_i32 none = Value.Null ∧
    from_opt_i64 none = Value.Null ∧
    from_opt_u8 none = Value.Null ∧
    from_opt_u16 none = Value.Null ∧
    from_opt_u32 none = Value.Null ∧
    from_opt_u64 none = Value.Null ∧
    from_opt_f32 none = Value.Null ∧
    from_opt_f64 none = Value.Null ∧
    from_opt_string none = Value.Null ∧
    from_opt_bytes none = Value.Null ∧
    unwrap_opt_bool Value.Null = none ∧
    unwrap_opt_i8 Value.Null = none ∧
    unwrap_opt_i16 Value.Null = none ∧
    unwrap_opt_i32 Value.Null = none ∧
    unwrap_opt_i64 Value.Null = none ∧
    unwrap_opt_u8 Value.Null = none ∧
    unwrap_opt_u16 Value.Null = none ∧
    unwrap_opt_u32 Value.Null = none ∧
    unwrap_opt_u64 Value.Null = none ∧
    unwrap_opt_f32 Value.Null = none ∧
    unwrap_opt_f64 Value.Null = none ∧
    unwrap_opt_string Value.Null = none ∧
    unwrap_opt_bytes Value.Null = none :=
  ⟨rfl, rfl, rfl, rfl, rfl, rfl, rfl, rfl, rfl, rfl, rfl, rfl, rfl,
   rfl, rfl, rfl, rfl, rfl, rfl, rfl, rfl, rfl, rfl, rfl, rfl, rfl⟩

/-- C4: the JSON-to-Value bridge sends `true` to `Value::Int(1)` and
`false` to `Value::Int(0)`; the result extracts as the signed integer 1
(resp. 0) and is not of the boolean kind, so extracting it as bool
panics. -/
theorem C4_json_bool_widens_to_int :
    json_value_to_sea_value (Json.bool true) = some (Value.Int 1) ∧
    json_value_to_sea_value (Json.bool false) = some (Value.Int 0) ∧
    unwrap_i32 (Value.Int 1) = some 1 ∧
    unwrap_i32 (Value.Int 0) = some 0 ∧
    (Value.Int 1).tag = ValueTag.IntT ∧
    unwrap_bool (Value.Int 1) = none ∧
    unwrap_bool (Value.Int 0) = none :=
  ⟨rfl, rfl, rfl, rfl, rfl, rfl, rfl⟩

/-- C5 counterexample: on a JSON array the bridge does not return a
typed conversion error — `json_value_to_sea_value` returns plain `Value`
(no error channel in its signature) and hits `unimplemented!()`, i.e. it
panics (the `none` of the modelled panic channel) on the concrete input
`Json::Array([])`. -/
theorem C5_array_panics_counterexample :
    json_value_to_sea_value (Json.arr []) = none := rfl

/-- C5 amended: the number mapping prefers 64-bit float when the number
is the float representation, else 64-bit signed integer if representable,
else 64-bit unsigned integer; for any JSON array input (and for the
number fallthrough) the bridge aborts with an `unimplemented!()` panic
instead of returning a typed conversion error. -/
theorem C5_number_preference_and_array_panic :
    (∀ bits : Nat, json_value_to_sea_value (Json.num (JNumber.Float bits))
      = some (Value.Double bits)) ∧
    (∀ i : Int, json_value_to_sea_value (Json.num (JNumber.NegInt i))
      = some (Value.BigInt i)) ∧
    (∀ n : Nat, json_value_to_sea_value (Json.num (JNumber.PosInt n))
      = some (if n ≤ i64MaxN then Value.BigInt (n : Int) else Value.BigUnsigned n)) ∧
    (∀ elems : List Json, json_value_to_sea_value (Json.arr elems) = none) := by
  refine ⟨fun bits => rfl, fun i => rfl, fun n => ?_, fun elems => rfl⟩
  by_cases h : n ≤ i64MaxN <;>
    simp [json_value_to_sea_value, JNumber.is_f64, JNumber.is_i64,
      JNumber.is_u64, JNumber.as_i64, JNumber.as_u64, h]

/-- C6 counterexample: on a byte sequence that is not valid UTF-8 the
Value-to-JSON bridge does not return a typed error —
`sea_value_to_json_value` returns plain `Json` (no error channel in its
signature) and `from_utf8(s).unwrap()` panics, shown here on the
concrete input `Value::Bytes(vec![0xFF])`. -/
theorem C6_invalid_utf8_panics_counterexample :
    sea_value_to_json_value (Value.Bytes [255]) = none := rfl

/-- C6 amended: the bridge maps a byte-sequence `Value` by
reinterpreting the bytes as UTF-8 text; on bytes that are not valid
UTF-8 the `.unwrap()` of the decode result panics (it does not return
the wrapped invalid-UTF-8 error). -/
theorem C6_bytes_utf8_reinterpretation :
    (∀ (bs : List Nat) (cs : List Char), from_utf8 bs = some cs →
      sea_value_to_json_value (Value.Bytes bs) = some (Json.str cs)) ∧
    (∀ bs : List Nat, from_utf8 bs = none →
      sea_value_to_json_value (Value.Bytes bs) = none) := by
  constructor
  · intro bs cs h
    simp [sea_value_to_json_value, h]
  · intro bs h
    simp [sea_value_to_json_value, h]

/-- Witness for C6: the valid byte sequence `"hi"` decodes and converts;
the invalid byte `0xFF` makes the bridge panic. -/
theorem C6_bytes_utf8_reinterpretation_witness :
    sea_value_to_json_value (Value.Bytes [104, 105]) = some (Json.str ['h', 'i']) ∧
    sea_value_to_json_value (Value.Bytes [128]) = none :=
  ⟨C6_bytes_utf8_reinterpretation.1 [104, 105] ['h', 'i'] (by decide),
   C6_bytes_utf8_reinterpretation.2 [128] (by decide)⟩

/-- C7: for every supported scalar type, `ValueType::unwrap` on a
`Value` whose current kind does not match the type's tag hits the
wildcard `panic!("type error")` arm — it never returns a value (and the
function has no error channel to return an error through). -/
theorem C7_mismatched_extract_panics :
    (∀ v : Value, v.tag ≠ ValueTag.BoolT → unwrap_bool v = none) ∧
    (∀ v : Value, v.tag ≠ ValueTag.TinyIntT → unwrap_i8 v = none) ∧
    (∀ v : Value, v.tag ≠ ValueTag.SmallIntT → unwrap_i16 v = none) ∧
    (∀ v : Value, v.tag ≠ ValueTag.IntT → unwrap_i32 v = none) ∧
    (∀ v : Value, v.tag ≠ ValueTag.BigIntT → unwrap_i64 v = none) ∧
    (∀ v : Value, v.tag ≠ ValueTag.TinyUnsignedT → unwrap_u8 v = none) ∧
    (∀ v : Value, v.tag ≠ ValueTag.SmallUnsignedT → unwrap_u16 v = none) ∧
    (∀ v : Value, v.tag ≠ ValueTag.UnsignedT → unwrap_u32 v = none) ∧
    (∀ v : Value, v.tag ≠ ValueTag.BigUnsignedT → unwrap_u64 v = none) ∧
    (∀ v : Value, v.tag ≠ ValueTag.FloatT → unwrap_f32 v = none) ∧
    (∀ v : Value, v.tag ≠ ValueTag.DoubleT → unwrap_f64 v = none) ∧
    (∀ v : Value, v.tag ≠ ValueTag.StringT → unwrap_string v = none) ∧
    (∀ v : Value, v.tag ≠ ValueTag.BytesT → unwrap_bytes v = none) := by
  refine ⟨?_, ?_, ?_, ?_, ?_, ?_, ?_, ?_, ?_, ?_, ?_, ?_, ?_⟩ <;>
    (intro v h; cases v <;>
      simp_all [Value.tag, unwrap_bool, unwrap_i8, unwrap_i16, unwrap_i32,
        unwrap_i64, unwrap_u8, unwrap_u16, unwrap_u32, unwrap_u64,
        unwrap_f32, unwrap_f64, unwrap_string, unwrap_bytes])

/-- Witness for C7: each mismatched extraction panics at a concrete
mismatched `Value`. -/
theorem C7_mismatched_extract_panics_witness :
    unwrap_bool Value.Null = none ∧
    unwrap_i8 (Value.Bool true) = none ∧
    unwrap_i16 (Value.Int 5) = none ∧
    unwrap_i32 (Value.BigInt 7) = none ∧
    unwrap_i64 (Value.Int 7) = none ∧
    unwrap_u8 (Value.SmallUnsigned 1) = none ∧
    unwrap_u16 (Value.TinyUnsigned 1) = none ∧
    unwrap_u32 (Value.BigUnsigned 1) = none ∧
    unwrap_u64 (Value.Unsigned 1) = none ∧
    unwrap_f32 (Value.Double 0) = none ∧
    unwrap_f64 (Value.Float 0) = none ∧
    unwrap_string (Value.Bytes []) = none ∧
    unwrap_bytes (Value.String []) = none :=
  ⟨C7_mismatched_extract_panics.1 Value.Null (by decide),
   C7_mismatched_extract_panics.2.1 (Value.Bool true) (by decide),
   C7_mismatched_extract_panics.2.2.1 (Value.Int 5) (by decide),
   C7_mismatched_extract_panics.2.2.2.1 (Value.BigInt 7) (by decide),
   C7_mismatched_extract_panics.2.2.2.2.1 (Value.Int 7) (by decide),
   C7_mismatched_extract_panics.2.2.2.2.2.1 (Value.SmallUnsigned 1) (by decide),
   C7_mismatched_extract_panics.2.2.2.2.2.2.1 (Value.TinyUnsigned 1) (by decide),
   C7_mismatched_extract_panics.2.2.2.2.2.2.2.1 (Value.BigUnsigned 1) (by decide),
   C7_mismatched_extract_panics.2.2.2.2.2.2.2.2.1 (Value.Unsigned 1) (by decide),
   C7_mismatched_extract_panics.2.2.2.2.2.2.2.2.2.1 (Value.Double 0) (by decide),
   C7_mismatched_extract_panics.2.2.2.2.2.2.2.2.2.2.1 (Value.Float 0) (by decide),
   C7_mismatched_extract_panics.2.2.2.2.2.2.2.2.2.2.2.1 (Value.Bytes []) (by decide),
   C7_mismatched_extract_panics.2.2.2.2.2.2.2.2.2.2.2.2 (Value.String []) (by decide)⟩

/-- C9: in the build with no optional capability, the predicates
`is_json`, `is_date_time` and `is_uuid` exist and return false on every
`Value`; in the build with all capabilities enabled each predicate
returns true exactly when the `Value` currently holds that kind. -/
theorem C9_capability_predicates :
    (∀ v : ValueNoFeatures,
      v.is_json = false ∧ v.is_date_time = false ∧ v.is_uuid = false) ∧
    (∀ v : ValueAllFeatures,
      (v.is_json = true ↔ ∃ j, v = ValueAllFeatures.Json j) ∧
      (v.is_date_time = true ↔ ∃ d, v = ValueAllFeatures.DateTime d) ∧
      (v.is_uuid = true ↔ ∃ u, v = ValueAllFeatures.Uuid u)) := by
  constructor
  · exact fun v => ⟨rfl, rfl, rfl⟩
  · intro v
    cases v <;>
      simp [ValueAllFeatures.is_json, ValueAllFeatures.is_date_time,
        ValueAllFeatures.is_uuid]

/-- Witness for C9: concrete evaluations of the predicates through the
theorem. -/
theorem C9_capability_predicates_witness :
    ValueNoFeatures.Null.is_json = false ∧
    (ValueAllFeatures.Json Json.null).is_json = true ∧
    (ValueAllFeatures.DateTime ⟨0, 0⟩).is_date_time = true ∧
    (ValueAllFeatures.Uuid 0).is_uuid = true :=
  ⟨(C9_capability_predicates.1 ValueNoFeatures.Null).1,
   (C9_capability_predicates.2 (ValueAllFeatures.Json Json.null)).1.mpr ⟨_, rfl⟩,
   (C9_capability_predicates.2 (ValueAllFeatures.DateTime ⟨0, 0⟩)).2.1.mpr ⟨_, rfl⟩,
   (C9_capability_predicates.2 (ValueAllFeatures.Uuid 0)).2.2.mpr ⟨_, rfl⟩⟩
